import Mathlib

/-!
Verification of `aviary/mission/phase_builder_base.py`: a shallow embedding of
the phase-builder data model and its operations (`PhaseBuilderBase.__init__`,
`validate_initial_guesses`, `apply_initial_guesses`, `to_phase_info`,
`from_phase_info`, `_add_initial_guess_meta_data`,
`_add_user_defined_constraints`, `build_phase`, `make_default_transcription`,
the state-builder helpers, the phase-builder-type registry `register` and the
dispatcher `phase_info_to_builder`), with theorems settling the specification
claims about them.

Python dicts are embedded as association lists preserving insertion order;
Python exceptions as `Except`; in-place mutation of a caller-supplied dict as
explicit value passing (the function returns the updated dict alongside its
result).
-/

/-- An embedded Python value as it occurs in phase-info dictionaries: booleans,
integers, strings, 2-tuples (the `(value, unit)` shape used throughout phase
info), and `atom` standing for any other opaque Python object. -/
inductive PyVal where
  | bool (b : Bool)
  | int (n : Int)
  | str (s : String)
  | tup (fst snd : PyVal)
  | atom (tag : String)
deriving DecidableEq, Repr

/-- Python-level `isinstance(value, tuple)` for embedded values. -/
def PyVal.isTuple : PyVal → Bool
  | .tup _ _ => true
  | _ => false

/-- The Python exceptions raised by the phase-builder module. -/
inductive PBError where
  | keyError (key : String)
  | typeError (msg : String)
  | valueError (msg : String)
  | unknownOption (key : String)
  | unitMismatch (key requested stored : String)
deriving DecidableEq, Repr

instance exceptDecidableEq {ε α : Type} [DecidableEq ε] [DecidableEq α] :
    DecidableEq (Except ε α) := fun x y =>
  match x, y with
  | .ok a, .ok b =>
    if h : a = b then isTrue (by rw [h]) else
      isFalse (by intro he; cases he; exact h rfl)
  | .error a, .error b =>
    if h : a = b then isTrue (by rw [h]) else
      isFalse (by intro he; cases he; exact h rfl)
  | .ok _, .error _ => isFalse (by intro he; cases he)
  | .error _, .ok _ => isFalse (by intro he; cases he)

/-- Ordered string-keyed association list: the embedding of a Python dict. -/
abbrev Dict (α : Type) : Type := List (String × α)

/-- Python `d.get(k)` / `d[k]` lookup (first binding wins; keys are unique in
a dict, and insertion order is preserved by construction). -/
def Dict.find {α : Type} (d : Dict α) (k : String) : Option α :=
  match d with
  | [] => none
  | kv :: rest => if kv.1 = k then some kv.2 else Dict.find rest k

/-- Python `d[k] = v`: replace the value in place when the key is present,
append a new binding otherwise. -/
def Dict.set {α : Type} (d : Dict α) (k : String) (v : α) : Dict α :=
  match d with
  | [] => [(k, v)]
  | kv :: rest => if kv.1 = k then (k, v) :: rest else kv :: Dict.set rest k v

/-- Python `d.pop(k)`: remove the binding for `k` (keys are unique in a
dict). -/
def Dict.remove {α : Type} (d : Dict α) (k : String) : Dict α :=
  match d with
  | [] => []
  | kv :: rest => if kv.1 = k then Dict.remove rest k else kv :: Dict.remove rest k

/-- The keys of a dict, in insertion order. -/
def Dict.keys {α : Type} (d : Dict α) : List String :=
  d.map Prod.fst

/-- Modelled from the spec: `AviaryValues` (`aviary/utils/aviary_values.py`,
not present under `src/`) is a typed key/value store mapping each name to a
`(value, unit)` pair; iterating it yields `(key, (value, unit))` pairs and
`get_item(key)` returns the stored `(value, unit)`. Embedded as an ordered
list of `(key, value, unit)` triples. -/
abbrev AviaryValues : Type := List (String × PyVal × String)

/-- Modelled from the spec: constructing `AviaryValues` from a phase-info
`initial_guesses` dict splits each `(value, unit)` tuple into its parts; a
bare value is stored with unit `'unitless'`. -/
def AviaryValues.ofDict (d : Dict PyVal) : AviaryValues :=
  d.map (fun kv =>
    match kv.2 with
    | .tup v (.str u) => (kv.1, v, u)
    | v => (kv.1, v, "unitless"))

/-- Modelled from the spec: `dict(aviary_values)` reconstitutes the mapping
key → `(value, unit)`. -/
def AviaryValues.toDict (av : AviaryValues) : Dict PyVal :=
  av.map (fun e => (e.1, .tup e.2.1 (.str e.2.2)))

/-- Modelled from the spec: `get_keys(aviary_values)` returns the stored keys
in insertion order. -/
def AviaryValues.get_keys (av : AviaryValues) : List String :=
  av.map Prod.fst

/-- Modelled from the spec: `key in aviary_values` membership. -/
def AviaryValues.contains (av : AviaryValues) (k : String) : Bool :=
  av.any (fun e => e.1 = k)

/-- Modelled from the spec: `aviary_values.get_item(key)` returns the stored
`(value, unit)` pair, when present. -/
def AviaryValues.get_item (av : AviaryValues) (k : String) : Option (PyVal × String) :=
  match av with
  | [] => none
  | e :: rest => if e.1 = k then some e.2 else AviaryValues.get_item rest k

/-- Modelled from the spec: the Options Model (`default_options_class`; the
concrete options-dictionary classes live outside `src/`). It is built from the
normalized `user_options` mapping of key → `(value, unit)` and serializes back
to exactly that mapping via `to_phase_info`. Embedded as the mapping itself. -/
abbrev OptionsDict : Type := Dict PyVal

/-- Modelled from the spec: `default_options_class(user_options)`; `None`
yields an empty options model. -/
def OptionsDict.ofUserOptions (uo : Option (Dict PyVal)) : OptionsDict :=
  uo.getD []

/-- Modelled from the spec: the Options Model's own serialization used by
`PhaseBuilderBase.to_phase_info`. -/
def OptionsDict.to_phase_info (o : OptionsDict) : Dict PyVal :=
  o

/-- Modelled from the spec: `options[name]` returns the stored value (the
first component of the stored `(value, unit)` pair); raises `KeyError` when
the name is absent. -/
def OptionsDict.getitem (o : OptionsDict) (k : String) : Except PBError PyVal :=
  match Dict.find o k with
  | some (.tup v (.str _)) => .ok v
  | some v => .ok v
  | none => .error (.keyError k)

/-- Modelled from the spec: `options.get_val(name, units)` returns the stored
value expressed in the requested units; fails with `UnknownOptionError` when
the name is absent and with `UnitMismatchError` when the requested unit
differs from the stored one (general unit conversion is out of scope; only
identity conversions are embedded). -/
def OptionsDict.get_val (o : OptionsDict) (k : String) (units : String) :
    Except PBError PyVal :=
  match Dict.find o k with
  | some (.tup v (.str u)) =>
    if u = units then .ok v else .error (.unitMismatch k units u)
  | some v =>
    if units = "unitless" then .ok v else .error (.unitMismatch k units "unitless")
  | none => .error (.unknownOption k)

/-- Modelled from the spec: `options.get_val(name)` with the default
`'unitless'` unit. -/
def OptionsDict.get_val0 (o : OptionsDict) (k : String) : Except PBError PyVal :=
  OptionsDict.get_val o k "unitless"

/-- The discretization scheme of a phase. `radau` embeds
`dm.Radau(num_segments=..., order=..., compressed=...)`; `other` stands for
any externally supplied transcription object. -/
inductive Transcription where
  | radau (num_segments order : PyVal) (compressed : Bool)
  | other (tag : String)
deriving DecidableEq, Repr

/-- The per-subtype class-level customization points of `PhaseBuilderBase`:
`default_name`, `default_ode_class` and the class-scoped initial-guess
registry `_initial_guesses_meta_data_` (a dict mapping each supported guess
key to its metadata; the stored `apply_initial_guess` function is embedded by
its name, `desc` by an optional string). -/
structure GuessMeta where
  apply_initial_guess : String
  desc : Option String
deriving DecidableEq, Repr

structure PhaseBuilderClass where
  default_name : String
  default_ode_class : String
  guess_registry : Dict GuessMeta
deriving DecidableEq, Repr

/-- A live `PhaseBuilderBase` instance: the fields set by `__init__`
(lines 104-157 of `phase_builder_base.py`). `core_subsystems` and
`external_subsystems` hold opaque subsystem references embedded by name. -/
structure PhaseBuilder where
  name : String
  core_subsystems : List String
  external_subsystems : List String
  subsystem_options : Dict PyVal
  user_options : OptionsDict
  initial_guesses : AviaryValues
  ode_class : Option String
  transcription : Option Transcription
  is_analytic_phase : Bool
  num_nodes : Nat
deriving DecidableEq, Repr

/-- The loop of `validate_initial_guesses` (lines 240-244): walk the stored
guess keys and raise `TypeError` at the first one not in the subtype's
registry. -/
def validateGuessKeys (cls : PhaseBuilderClass) (clsName phaseName : String) :
    List String → Except PBError Unit
  | [] => .ok ()
  | k :: rest =>
    if (Dict.find cls.guess_registry k).isSome then
      validateGuessKeys cls clsName phaseName rest
    else
      .error (.typeError (clsName ++ ": " ++ phaseName ++ ": unsupported initial guess: " ++ k))

/-- `PhaseBuilderBase.validate_initial_guesses` (lines 227-244): returns
immediately when `initial_guesses` is empty; otherwise raises `TypeError` at
the first stored guess key that is not in the subtype's registry. -/
def validate_initial_guesses (cls : PhaseBuilderClass) (clsName phaseName : String)
    (initial_guesses : AviaryValues) : Except PBError Unit :=
  if initial_guesses.isEmpty then
    .ok ()
  else
    validateGuessKeys cls clsName phaseName (AviaryValues.get_keys initial_guesses)

/-- `PhaseBuilderBase.__init__` (lines 104-157): fill the `None` parameters
with their defaults, wrap `user_options` in the options model, validate the
initial guesses, and store every field. -/
def PhaseBuilder.init (cls : PhaseBuilderClass) (clsName : String)
    (name : Option String) (core_subsystems external_subsystems : Option (List String))
    (user_options : Option (Dict PyVal)) (initial_guesses : Option AviaryValues)
    (ode_class : Option String) (transcription : Option Transcription)
    (subsystem_options : Option (Dict PyVal))
    (is_analytic_phase : Bool) (num_nodes : Nat) : Except PBError PhaseBuilder :=
  let name := name.getD cls.default_name
  let core_subsystems := core_subsystems.getD []
  let external_subsystems := external_subsystems.getD []
  let subsystem_options := subsystem_options.getD []
  let user_options := OptionsDict.ofUserOptions user_options
  let initial_guesses := initial_guesses.getD []
  match validate_initial_guesses cls clsName name initial_guesses with
  | .error e => .error e
  | .ok _ =>
    .ok {
      name := name
      core_subsystems := core_subsystems
      external_subsystems := external_subsystems
      subsystem_options := subsystem_options
      user_options := user_options
      initial_guesses := initial_guesses
      ode_class := ode_class
      transcription := transcription
      is_analytic_phase := is_analytic_phase
      num_nodes := num_nodes
    }

/-- One recorded invocation of a stored `apply_initial_guess` function:
`apply_initial_guess(prob, traj_name, phase, phase_name, val, units)`
(line 259); `prob`, `traj_name` and `phase` are live handles not captured by
the record. -/
structure AppliedGuess where
  apply_initial_guess : String
  phase_name : String
  val : PyVal
  units : String
deriving DecidableEq, Repr

/-- `PhaseBuilderBase.apply_initial_guesses` (lines 246-264): iterate the
subtype's registry in order; for each registry key stored in
`initial_guesses`, invoke the stored apply function with the stored value and
units; collect every other registry key into the returned `not_applied`
list. The loop over the registry (lines 254-262): -/
def applyGuessesOverRegistry (b : PhaseBuilder) :
    Dict GuessMeta → List AppliedGuess × List String
  | [] => ([], [])
  | (key, meta) :: rest =>
    let tail := applyGuessesOverRegistry b rest
    match AviaryValues.get_item b.initial_guesses key with
    | some (val, units) =>
      (⟨meta.apply_initial_guess, b.name, val, units⟩ :: tail.1, tail.2)
    | none => (tail.1, key :: tail.2)

/-- `PhaseBuilderBase.apply_initial_guesses` proper (lines 246-264). -/
def apply_initial_guesses (cls : PhaseBuilderClass) (b : PhaseBuilder) :
    List AppliedGuess × List String :=
  applyGuessesOverRegistry b cls.guess_registry

/-- `PhaseBuilderBase._add_initial_guess_meta_data` (lines 350-363):
`meta_data[name] = dict(apply_initial_guess=..., desc=desc)` — a plain dict
assignment with no duplicate check. -/
def add_initial_guess_meta_data (cls : PhaseBuilderClass)
    (key : String) (apply_name : String) (desc : Option String) : PhaseBuilderClass :=
  { cls with guess_registry := Dict.set cls.guess_registry key ⟨apply_name, desc⟩ }

/-- A phase-info dict for one phase: the four recognized keys, each `none`
when absent from the dict. `user_options` values are raw `PyVal`s (bare
scalars or `(value, unit)` tuples); `initial_guesses` values are
`(value, unit)` tuples; `external_subsystems` holds opaque references by
name. -/
structure PhaseInfo where
  subsystem_options : Option (Dict PyVal)
  user_options : Option (Dict PyVal)
  initial_guesses : Option (Dict PyVal)
  external_subsystems : Option (List String)
deriving DecidableEq, Repr

/-- The normalization applied by `from_phase_info` (lines 318-322) to each
`user_options` value: a value that is not a tuple is wrapped as
`(value, 'unitless')`. -/
def normalizeUserOpt (v : PyVal) : PyVal :=
  if v.isTuple then v else .tup v (.str "unitless")

/-- `PhaseBuilderBase.to_phase_info` (lines 270-299): serialize
`subsystem_options`, `user_options` (via the options model) and
`initial_guesses` into a phase-info dict; `external_subsystems` is not
serialized. -/
def to_phase_info (b : PhaseBuilder) : String × PhaseInfo :=
  (b.name,
    { subsystem_options := some b.subsystem_options
      user_options := some (OptionsDict.to_phase_info b.user_options)
      initial_guesses := some (AviaryValues.toDict b.initial_guesses)
      external_subsystems := none })

/-- `PhaseBuilderBase.from_phase_info` (lines 301-348): normalize each bare
`user_options` value in place (`KeyError` when the `user_options` key is
absent), extract the remaining keys with empty defaults, and construct the
builder. The updated phase-info dict is returned alongside the builder, since
the Python code mutates the caller's dict. -/
def from_phase_info (cls : PhaseBuilderClass) (clsName : String)
    (name : String) (phase_info : PhaseInfo)
    (core_subsystems : Option (List String)) (transcription : Option Transcription) :
    Except PBError (PhaseInfo × PhaseBuilder) :=
  match phase_info.user_options with
  | none => .error (.keyError "user_options")
  | some uo =>
    let uo' := uo.map (fun kv => (kv.1, normalizeUserOpt kv.2))
    let phase_info' : PhaseInfo := { phase_info with user_options := some uo' }
    let subsystem_options := phase_info'.subsystem_options.getD []
    let user_options := phase_info'.user_options.getD []
    let initial_guesses := AviaryValues.ofDict (phase_info'.initial_guesses.getD [])
    let external_subsystems := phase_info'.external_subsystems.getD []
    match PhaseBuilder.init cls clsName (some name) core_subsystems
        (some external_subsystems) (some user_options) (some initial_guesses)
        none transcription (some subsystem_options) false 5 with
    | .error e => .error e
    | .ok b => .ok (phase_info', b)

/-- The `ode_init_kwargs` assembled by `build_phase` (lines 190-200):
`aviary_options` plus `_extra_ode_init_kwargs` (empty in the base class), then
`subsystem_options`, `core_subsystems` and `external_subsystems`. -/
structure OdeInitKwargs where
  aviary_options : AviaryValues
  subsystem_options : Dict PyVal
  core_subsystems : List String
  external_subsystems : List String
deriving DecidableEq, Repr

/-- The phase object returned by `build_phase`: either
`dm.AnalyticPhase(ode_class=..., ode_init_kwargs=..., num_nodes=...)` or
`dm.Phase(ode_class=..., transcription=..., ode_init_kwargs=...)`. -/
inductive BuiltPhase where
  | analytic (ode_class : String) (ode_init_kwargs : OdeInitKwargs) (num_nodes : Nat)
  | phase (ode_class : String) (transcription : Transcription)
      (ode_init_kwargs : OdeInitKwargs)
deriving DecidableEq, Repr

/-- The `ode_class` of a built phase. -/
def BuiltPhase.odeClass : BuiltPhase → String
  | .analytic c _ _ => c
  | .phase c _ _ => c

/-- The transcription of a built phase; an analytic phase has none. -/
def BuiltPhase.transcriptionOf : BuiltPhase → Option Transcription
  | .analytic _ _ _ => none
  | .phase _ t _ => some t

/-- The node count of a built phase; a collocation phase has none of its
own. -/
def BuiltPhase.numNodes : BuiltPhase → Option Nat
  | .analytic _ _ n => some n
  | .phase _ _ _ => none

/-- `PhaseBuilderBase.make_default_transcription` (lines 216-225): read
`num_segments` and `order` from `user_options` and return
`dm.Radau(num_segments=num_segments, order=order, compressed=True)`. -/
def make_default_transcription (b : PhaseBuilder) : Except PBError Transcription :=
  match OptionsDict.getitem b.user_options "num_segments" with
  | .error e => .error e
  | .ok num_segments =>
    match OptionsDict.getitem b.user_options "order" with
    | .error e => .error e
    | .ok order => .ok (.radau num_segments order true)

/-- `PhaseBuilderBase.build_phase` (lines 159-214): resolve `ode_class` to
the class default when unset; resolve `transcription` through
`make_default_transcription` when unset and the phase is not analytic;
assemble the ODE-init kwargs; construct an `AnalyticPhase` (with `num_nodes`,
no transcription) when `is_analytic_phase`, else a `Phase` with the resolved
transcription. -/
def build_phase (cls : PhaseBuilderClass) (b : PhaseBuilder)
    (aviary_options : Option AviaryValues) : Except PBError BuiltPhase :=
  let ode_class := b.ode_class.getD cls.default_ode_class
  let transcription : Except PBError (Option Transcription) :=
    if b.transcription.isNone ∧ ¬ b.is_analytic_phase then
      match make_default_transcription b with
      | .error e => .error e
      | .ok t => .ok (some t)
    else
      .ok b.transcription
  match transcription with
  | .error e => .error e
  | .ok transcription =>
    let aviary_options := aviary_options.getD []
    let kwargs : OdeInitKwargs :=
      { aviary_options := aviary_options
        subsystem_options := b.subsystem_options
        core_subsystems := b.core_subsystems
        external_subsystems := b.external_subsystems }
    if b.is_analytic_phase then
      .ok (.analytic ode_class kwargs b.num_nodes)
    else
      match transcription with
      | some t => .ok (.phase ode_class t kwargs)
      | none => .ok (.phase ode_class (.other "None") kwargs)

/-- The variable names of `aviary/variable_info/variables.py` used by the
state-builder helpers. Modelled from the spec: that module is not under
`src/`; each state and its rate-producing ODE output are distinct named
variables. -/
def Dynamic_Mission_VELOCITY : String := "velocity"

def Dynamic_Mission_VELOCITY_RATE : String := "velocity_rate"

def Dynamic_Vehicle_MASS : String := "mass"

def Dynamic_Vehicle_Propulsion_FUEL_FLOW_RATE_NEGATIVE_TOTAL : String :=
  "fuel_flow_rate_negative_total"

def Dynamic_Mission_DISTANCE : String := "distance"

def Dynamic_Mission_DISTANCE_RATE : String := "distance_rate"

def Dynamic_Mission_FLIGHT_PATH_ANGLE : String := "flight_path_angle"

def Dynamic_Mission_FLIGHT_PATH_ANGLE_RATE : String := "flight_path_angle_rate"

def Dynamic_Mission_ALTITUDE : String := "altitude"

def Dynamic_Mission_ALTITUDE_RATE : String := "altitude_rate"

/-- One `phase.add_state(...)` registration: the keyword arguments passed by
the state-builder helpers. `fix_initial` is `none` when the helper does not
pass that keyword at all; `targets` likewise. -/
structure StateDecl where
  state_name : String
  fix_initial : Option PyVal
  fix_final : Bool
  lower : PyVal
  upper : PyVal
  units : String
  rate_source : String
  targets : Option String
  ref : PyVal
  ref0 : PyVal
  defect_ref : PyVal
deriving DecidableEq, Repr

/-- `PhaseBuilderBase.add_velocity_state` (lines 397-416). -/
def add_velocity_state (user_options : OptionsDict) : Except PBError StateDecl := do
  let velocity_lower ← OptionsDict.get_val user_options "velocity_lower" "kn"
  let velocity_upper ← OptionsDict.get_val user_options "velocity_upper" "kn"
  let velocity_ref ← OptionsDict.get_val user_options "velocity_ref" "kn"
  let velocity_ref0 ← OptionsDict.get_val user_options "velocity_ref0" "kn"
  let velocity_defect_ref ← OptionsDict.get_val user_options "velocity_defect_ref" "kn"
  let fix_initial ← OptionsDict.get_val0 user_options "fix_initial"
  return {
    state_name := Dynamic_Mission_VELOCITY
    fix_initial := some fix_initial
    fix_final := false
    lower := velocity_lower
    upper := velocity_upper
    units := "kn"
    rate_source := Dynamic_Mission_VELOCITY_RATE
    targets := some Dynamic_Mission_VELOCITY
    ref := velocity_ref
    ref0 := velocity_ref0
    defect_ref := velocity_defect_ref }

/-- `PhaseBuilderBase.add_mass_state` (lines 418-437). -/
def add_mass_state (user_options : OptionsDict) : Except PBError StateDecl := do
  let mass_lower ← OptionsDict.get_val user_options "mass_lower" "lbm"
  let mass_upper ← OptionsDict.get_val user_options "mass_upper" "lbm"
  let mass_ref ← OptionsDict.get_val user_options "mass_ref" "lbm"
  let mass_ref0 ← OptionsDict.get_val user_options "mass_ref0" "lbm"
  let mass_defect_ref ← OptionsDict.get_val user_options "mass_defect_ref" "lbm"
  let fix_initial ← OptionsDict.get_val0 user_options "fix_initial"
  return {
    state_name := Dynamic_Vehicle_MASS
    fix_initial := some fix_initial
    fix_final := false
    lower := mass_lower
    upper := mass_upper
    units := "lbm"
    rate_source := Dynamic_Vehicle_Propulsion_FUEL_FLOW_RATE_NEGATIVE_TOTAL
    targets := some Dynamic_Vehicle_MASS
    ref := mass_ref
    ref0 := mass_ref0
    defect_ref := mass_defect_ref }

/-- `PhaseBuilderBase.add_distance_state` (lines 439-457); `units` defaults
to `'NM'` at the call site. -/
def add_distance_state (user_options : OptionsDict) (units : String) :
    Except PBError StateDecl := do
  let distance_lower ← OptionsDict.get_val user_options "distance_lower" units
  let distance_upper ← OptionsDict.get_val user_options "distance_upper" units
  let distance_ref ← OptionsDict.get_val user_options "distance_ref" units
  let distance_ref0 ← OptionsDict.get_val user_options "distance_ref0" units
  let distance_defect_ref ← OptionsDict.get_val user_options "distance_defect_ref" units
  let fix_initial ← OptionsDict.get_val0 user_options "fix_initial"
  return {
    state_name := Dynamic_Mission_DISTANCE
    fix_initial := some fix_initial
    fix_final := false
    lower := distance_lower
    upper := distance_upper
    units := units
    rate_source := Dynamic_Mission_DISTANCE_RATE
    targets := none
    ref := distance_ref
    ref0 := distance_ref0
    defect_ref := distance_defect_ref }

/-- `PhaseBuilderBase.add_flight_path_angle_state` (lines 459-477): note that
`fix_initial=True` is passed literally, not read from `user_options`. -/
def add_flight_path_angle_state (user_options : OptionsDict) :
    Except PBError StateDecl := do
  let angle_lower ← OptionsDict.get_val user_options "angle_lower" "rad"
  let angle_upper ← OptionsDict.get_val user_options "angle_upper" "rad"
  let angle_ref ← OptionsDict.get_val user_options "angle_ref" "rad"
  let angle_ref0 ← OptionsDict.get_val user_options "angle_ref0" "rad"
  let angle_defect_ref ← OptionsDict.get_val user_options "angle_defect_ref" "rad"
  return {
    state_name := Dynamic_Mission_FLIGHT_PATH_ANGLE
    fix_initial := some (.bool true)
    fix_final := false
    lower := angle_lower
    upper := angle_upper
    units := "rad"
    rate_source := Dynamic_Mission_FLIGHT_PATH_ANGLE_RATE
    targets := none
    ref := angle_ref
    ref0 := angle_ref0
    defect_ref := angle_defect_ref }

/-- `PhaseBuilderBase.add_altitude_state` (lines 479-496): note that no
`fix_initial` keyword is passed at all; `units` defaults to `'ft'` at the
call site. -/
def add_altitude_state (user_options : OptionsDict) (units : String) :
    Except PBError StateDecl := do
  let alt_lower ← OptionsDict.get_val user_options "alt_lower" units
  let alt_upper ← OptionsDict.get_val user_options "alt_upper" units
  let alt_ref ← OptionsDict.get_val user_options "alt_ref" units
  let alt_ref0 ← OptionsDict.get_val user_options "alt_ref0" units
  let alt_defect_ref ← OptionsDict.get_val user_options "alt_defect_ref" units
  return {
    state_name := Dynamic_Mission_ALTITUDE
    fix_initial := none
    fix_final := false
    lower := alt_lower
    upper := alt_upper
    units := units
    rate_source := Dynamic_Mission_ALTITUDE_RATE
    targets := none
    ref := alt_ref
    ref0 := alt_ref0
    defect_ref := alt_defect_ref }

/-- One constraint registration performed by `_add_user_defined_constraints`:
`phase.add_boundary_constraint(first_arg, **kwargs)` or
`phase.add_path_constraint(first_arg, **kwargs)`. -/
inductive ConstraintDecl where
  | boundary (first_arg : PyVal) (kwargs : Dict PyVal)
  | path (first_arg : PyVal) (kwargs : Dict PyVal)
deriving DecidableEq, Repr

/-- The body of the `_add_user_defined_constraints` loop (lines 367-381) for
one `(constraint_name, kwargs)` entry: dispatch on `kwargs['type']`
(`KeyError` when absent); `'boundary'` pops `type`, optionally pops `target`
and sets `constraint_name`, then registers a boundary constraint; `'path'`
pops `type` and registers a path constraint; any other type falls through
both branches, registering nothing. Returns the kwargs dict as the caller
observes it afterwards, with the list of registrations performed. -/
def add_one_user_defined_constraint (constraint_name : String) (kwargs : Dict PyVal) :
    Except PBError (Dict PyVal × List ConstraintDecl) :=
  match Dict.find kwargs "type" with
  | none => .error (.keyError "type")
  | some ty =>
    if ty = .str "boundary" then
      let kwargs := Dict.remove kwargs "type"
      match Dict.find kwargs "target" with
      | some target =>
        let kwargs := Dict.set (Dict.remove kwargs "target") "constraint_name" (.str constraint_name)
        .ok (kwargs, [.boundary target kwargs])
      | none => .ok (kwargs, [.boundary (.str constraint_name) kwargs])
    else if ty = .str "path" then
      let kwargs := Dict.remove kwargs "type"
      .ok (kwargs, [.path (.str constraint_name) kwargs])
    else
      .ok (kwargs, [])

/-- `PhaseBuilderBase._add_user_defined_constraints` (lines 365-381): run the
loop body over every entry of the constraints mapping, accumulating the
registrations and the observable final state of each entry's kwargs dict. -/
def add_user_defined_constraints (constraints : Dict (Dict PyVal)) :
    Except PBError (Dict (Dict PyVal) × List ConstraintDecl) :=
  match constraints with
  | [] => .ok ([], [])
  | (name, kwargs) :: rest =>
    match add_one_user_defined_constraint name kwargs with
    | .error e => .error e
    | .ok (kwargs', decls) =>
      match add_user_defined_constraints rest with
      | .error e => .error e
      | .ok (rest', decls') => .ok ((name, kwargs') :: rest', decls ++ decls')

/-- The module-level `register` function (lines 514-536) acting on the
process-wide `_registered_phase_builder_types` list: with `check_repeats`
true and the type already present, raise
`ValueError('repeated phase builder type')` (leaving the registry unchanged,
since the raise happens before the append); otherwise append the type. The
registry is embedded as an explicit list of type tags. -/
def registerPhaseBuilderType (registry : List String) (phase_builder_t : String)
    (check_repeats : Bool) : Except PBError (List String) :=
  if check_repeats ∧ phase_builder_t ∈ registry then
    .error (.valueError "repeated phase builder type")
  else
    .ok (registry ++ [phase_builder_t])

/-- A registered phase-builder type as seen by `phase_info_to_builder`: its
tag together with its `from_phase_info` recognizer, which returns `none` when
the type does not recognize the phase info. -/
structure RegisteredType where
  tag : String
  recognize : String → PhaseInfo → Option PhaseBuilder

/-- `phase_info_to_builder` (lines 539-561): try each registered type's
`from_phase_info` in registration order and return the first result that is
not `None`; when every attempt returns `None`, raise
`ValueError(f'unsupported phase info: {name}')`. -/
def phase_info_to_builder (registry : List RegisteredType) (name : String)
    (phase_info : PhaseInfo) : Except PBError (String × PhaseBuilder) :=
  match registry with
  | [] => .error (.valueError ("unsupported phase info: " ++ name))
  | t :: rest =>
    match t.recognize name phase_info with
    | some builder => .ok (t.tag, builder)
    | none => phase_info_to_builder rest name phase_info

/-! ### Dictionary and value lemmas -/

theorem Dict.find_remove_self {α : Type} (d : Dict α) (k : String) :
    Dict.find (Dict.remove d k) k = none := by
  induction d with
  | nil => rfl
  | cons kv rest ih =>
    by_cases h : kv.1 = k
    · simpa [Dict.remove, h] using ih
    · simpa [Dict.remove, Dict.find, h] using ih

theorem Dict.find_remove_ne {α : Type} (d : Dict α) (k k' : String) (h : k' ≠ k) :
    Dict.find (Dict.remove d k) k' = Dict.find d k' := by
  have hne : ¬ k = k' := fun e => h e.symm
  induction d with
  | nil => rfl
  | cons kv rest ih =>
    by_cases hk : kv.1 = k
    · have ha : ¬ kv.1 = k' := fun e => h (e.symm.trans hk)
      simp only [Dict.remove, hk, if_true, Dict.find, if_neg ha, hne, if_neg hne]
      simpa [hk, hne] using ih
    · by_cases hk' : kv.1 = k'
      · simp [Dict.remove, Dict.find, hk, hk', h]
      · simp only [Dict.remove, if_neg hk, Dict.find, if_neg hk']
        exact ih

theorem Dict.find_set_ne {α : Type} (d : Dict α) (k : String) (v : α) (k' : String)
    (h : k' ≠ k) : Dict.find (Dict.set d k v) k' = Dict.find d k' := by
  have hne : ¬ k = k' := fun e => h e.symm
  induction d with
  | nil => simp [Dict.set, Dict.find, hne]
  | cons kv rest ih =>
    by_cases hk : kv.1 = k
    · have ha : ¬ kv.1 = k' := fun e => h (e.symm.trans hk)
      simp [Dict.set, Dict.find, hk, ha, hne]
    · by_cases hk' : kv.1 = k'
      · simp [Dict.set, Dict.find, hk, hk', h, hne]
      · simp only [Dict.set, if_neg hk, Dict.find, if_neg hk']
        exact ih

theorem Dict.find_isSome_iff_mem_keys {α : Type} (d : Dict α) (k : String) :
    (Dict.find d k).isSome = true ↔ k ∈ Dict.keys d := by
  induction d with
  | nil => simp [Dict.find, Dict.keys]
  | cons kv rest ih =>
    by_cases h : kv.1 = k
    · simp [Dict.find, Dict.keys, h]
    · have h' : ¬ k = kv.1 := fun e => h e.symm
      simp only [Dict.find, if_neg h, Dict.keys, List.map_cons, List.mem_cons]
      rw [ih]
      simp [h', Dict.keys]

theorem normalizeUserOpt_isTuple (v : PyVal) : (normalizeUserOpt v).isTuple = true := by
  cases v <;> rfl

theorem normalizeUserOpt_idem (v : PyVal) :
    normalizeUserOpt (normalizeUserOpt v) = normalizeUserOpt v := by
  cases v <;> rfl

theorem normalizeUserOpt_of_isTuple (v : PyVal) (h : v.isTuple = true) :
    normalizeUserOpt v = v := by
  cases v <;> simp_all [PyVal.isTuple, normalizeUserOpt]

theorem AviaryValues.ofDict_toDict (av : AviaryValues) :
    AviaryValues.ofDict (AviaryValues.toDict av) = av := by
  induction av with
  | nil => rfl
  | cons e rest ih =>
    simp only [AviaryValues.toDict, List.map_cons, AviaryValues.ofDict] at ih ⊢
    rw [ih]

theorem AviaryValues.toDict_ofDict (d : Dict PyVal)
    (h : ∀ kv ∈ d, ∃ v u, kv.2 = .tup v (.str u)) :
    AviaryValues.toDict (AviaryValues.ofDict d) = d := by
  induction d with
  | nil => rfl
  | cons kv rest ih =>
    obtain ⟨v, u, hv⟩ := h kv (by simp)
    have hrest : AviaryValues.toDict (AviaryValues.ofDict rest) = rest :=
      ih (fun kv' hkv' => h kv' (List.mem_cons_of_mem _ hkv'))
    obtain ⟨a, w⟩ := kv
    simp only at hv
    subst hv
    simp only [AviaryValues.ofDict, List.map_cons, AviaryValues.toDict] at hrest ⊢
    rw [hrest]

theorem AviaryValues.ofDict_entry_key (kv : String × PyVal) :
    (match kv.2 with
     | .tup v (.str u) => (kv.1, v, u)
     | v => (kv.1, v, "unitless")).1 = kv.1 := by
  obtain ⟨a, w⟩ := kv
  cases w with
  | bool b => rfl
  | int n => rfl
  | str s => rfl
  | atom t => rfl
  | tup f s => cases s <;> rfl

theorem AviaryValues.get_keys_ofDict (d : Dict PyVal) :
    AviaryValues.get_keys (AviaryValues.ofDict d) = Dict.keys d := by
  induction d with
  | nil => rfl
  | cons kv rest ih =>
    simp only [AviaryValues.ofDict, List.map_cons, AviaryValues.get_keys, Dict.keys] at ih ⊢
    rw [List.cons_eq_cons]
    exact ⟨AviaryValues.ofDict_entry_key kv, ih⟩

/-! ### Validation lemmas -/

theorem validateGuessKeys_ok_iff (cls : PhaseBuilderClass) (cn pn : String)
    (ks : List String) :
    validateGuessKeys cls cn pn ks = .ok () ↔
      ∀ k ∈ ks, (Dict.find cls.guess_registry k).isSome = true := by
  induction ks with
  | nil => simp [validateGuessKeys]
  | cons k rest ih =>
    by_cases h : (Dict.find cls.guess_registry k).isSome = true
    · constructor
      · intro hok k' hk'
        rcases List.mem_cons.mp hk' with he | hm
        · rw [he]
          exact h
        · have hrest : validateGuessKeys cls cn pn rest = .ok () := by
            simpa [validateGuessKeys, h] using hok
          exact ih.mp hrest k' hm
      · intro hall
        have hrest : validateGuessKeys cls cn pn rest = .ok () :=
          ih.mpr (fun k' hm => hall k' (List.mem_cons_of_mem _ hm))
        simpa [validateGuessKeys, h] using hrest
    · constructor
      · intro hok
        exfalso
        simp [validateGuessKeys, h] at hok
      · intro hall
        exact absurd (hall k (by simp)) h

theorem validate_initial_guesses_ok_iff (cls : PhaseBuilderClass) (cn pn : String)
    (gs : AviaryValues) :
    validate_initial_guesses cls cn pn gs = .ok () ↔
      ∀ k ∈ AviaryValues.get_keys gs, (Dict.find cls.guess_registry k).isSome = true := by
  unfold validate_initial_guesses
  by_cases h : gs.isEmpty
  · have hnil : gs = [] := List.isEmpty_iff.mp h
    subst hnil
    simp [AviaryValues.get_keys]
  · simp [h, validateGuessKeys_ok_iff]

theorem PhaseBuilder.init_ok_elim (cls : PhaseBuilderClass) (clsName : String)
    (name : Option String) (cs es : Option (List String)) (uo : Option (Dict PyVal))
    (ig : Option AviaryValues) (oc : Option String) (tr : Option Transcription)
    (so : Option (Dict PyVal)) (ia : Bool) (nn : Nat) (b : PhaseBuilder)
    (h : PhaseBuilder.init cls clsName name cs es uo ig oc tr so ia nn = .ok b) :
    validate_initial_guesses cls clsName (name.getD cls.default_name) (ig.getD []) = .ok ()
    ∧ b = {
        name := name.getD cls.default_name
        core_subsystems := cs.getD []
        external_subsystems := es.getD []
        subsystem_options := so.getD []
        user_options := OptionsDict.ofUserOptions uo
        initial_guesses := ig.getD []
        ode_class := oc
        transcription := tr
        is_analytic_phase := ia
        num_nodes := nn } := by
  simp only [PhaseBuilder.init] at h
  cases hval : validate_initial_guesses cls clsName (name.getD cls.default_name) (ig.getD []) with
  | error e =>
    rw [hval] at h
    exact absurd h (by simp)
  | ok u =>
    cases u
    rw [hval] at h
    refine ⟨rfl, ?_⟩
    simpa using h.symm

/-! ### Claim theorems: guess validation, registration, application -/

/-- C7: `validate_initial_guesses` raises an error precisely when some key of
`initial_guesses` is absent from the subtype's guess registry (in particular,
no keys at all raises nothing), and the same check runs synchronously inside
`__init__`, so every successfully constructed builder carries only supported
guess keys. -/
theorem C7_guess_validation (cls : PhaseBuilderClass) (cn pn : String)
    (gs : AviaryValues) :
    ((∃ e, validate_initial_guesses cls cn pn gs = .error e) ↔
      ∃ k ∈ AviaryValues.get_keys gs, ¬ k ∈ Dict.keys cls.guess_registry)
    ∧ (∀ (clsName : String) (name : Option String) (cs es : Option (List String))
        (uo : Option (Dict PyVal)) (ig : Option AviaryValues) (oc : Option String)
        (tr : Option Transcription) (so : Option (Dict PyVal)) (ia : Bool) (nn : Nat)
        (b : PhaseBuilder),
        PhaseBuilder.init cls clsName name cs es uo ig oc tr so ia nn = .ok b →
        ∀ k ∈ AviaryValues.get_keys b.initial_guesses, k ∈ Dict.keys cls.guess_registry) := by
  constructor
  · constructor
    · rintro ⟨e, he⟩
      by_contra hno
      push_neg at hno
      have hok : validate_initial_guesses cls cn pn gs = .ok () :=
        (validate_initial_guesses_ok_iff cls cn pn gs).mpr
          (fun k hk => (Dict.find_isSome_iff_mem_keys _ _).mpr (hno k hk))
      rw [hok] at he
      exact absurd he (by simp)
    · rintro ⟨k, hk, hmem⟩
      cases hval : validate_initial_guesses cls cn pn gs with
      | ok u =>
        cases u
        have hsome := (validate_initial_guesses_ok_iff cls cn pn gs).mp hval k hk
        exact absurd ((Dict.find_isSome_iff_mem_keys _ _).mp hsome) hmem
      | error e => exact ⟨e, rfl⟩
  · intro clsName name cs es uo ig oc tr so ia nn b hinit k hk
    obtain ⟨hval, hb⟩ := PhaseBuilder.init_ok_elim _ _ _ _ _ _ _ _ _ _ _ _ _ hinit
    rw [hb] at hk
    have hsome := (validate_initial_guesses_ok_iff _ _ _ _).mp hval k (by simpa using hk)
    exact (Dict.find_isSome_iff_mem_keys _ _).mp hsome

def guessRegC7 : Dict GuessMeta := [("time", ⟨"apply_time_guess", none⟩)]

def clsC7 : PhaseBuilderClass := ⟨"_unknown phase_", "EnergyODE", guessRegC7⟩

def guessesC7 : AviaryValues := [("time", .tup (.int 0) (.int 10), "s")]

def builderC7 : PhaseBuilder :=
  { name := "climb"
    core_subsystems := []
    external_subsystems := []
    subsystem_options := []
    user_options := []
    initial_guesses := guessesC7
    ode_class := none
    transcription := none
    is_analytic_phase := false
    num_nodes := 5 }

theorem C7_guess_validation_witness : "time" ∈ Dict.keys clsC7.guess_registry :=
  (C7_guess_validation clsC7 "PhaseBuilderBase" "climb" guessesC7).2
    "PhaseBuilderBase" (some "climb") none none none (some guessesC7) none none none
    false 5 builderC7 (by decide) "time" (by decide)

/-- C8: registering a phase-builder type already in the registry with
`check_repeats=True` raises `ValueError` (the raise precedes the append, so
the registry is unchanged — the error result carries no new registry), while
with `check_repeats=False` it appends, after which the type occurs at least
twice. -/
theorem C8_register_duplicate (registry : List String) (t : String)
    (h : t ∈ registry) :
    registerPhaseBuilderType registry t true
        = .error (.valueError "repeated phase builder type")
    ∧ registerPhaseBuilderType registry t false = .ok (registry ++ [t])
    ∧ 2 ≤ (registry ++ [t]).count t := by
  refine ⟨by simp [registerPhaseBuilderType, h], by simp [registerPhaseBuilderType], ?_⟩
  have h1 : 0 < registry.count t := List.count_pos_iff.mpr h
  have h2 : List.count t [t] = 1 := by simp
  rw [List.count_append, h2]
  omega

theorem C8_register_duplicate_witness :
    registerPhaseBuilderType ["EnergyPhase"] "EnergyPhase" true
        = .error (.valueError "repeated phase builder type")
    ∧ registerPhaseBuilderType ["EnergyPhase"] "EnergyPhase" false
        = .ok (["EnergyPhase"] ++ ["EnergyPhase"])
    ∧ 2 ≤ (["EnergyPhase"] ++ ["EnergyPhase"]).count "EnergyPhase" :=
  C8_register_duplicate ["EnergyPhase"] "EnergyPhase" (by decide)

/-- C3 (code bug): `_add_initial_guess_meta_data`'s docstring promises
`ValueError` on a repeated initial guess, but the body is a bare dict
assignment: registering the key `'time'` twice raises nothing and silently
overwrites the first entry. -/
theorem C3_duplicate_guess_key_overwrites :
    add_initial_guess_meta_data
        (add_initial_guess_meta_data ⟨"_unknown phase_", "EnergyODE", []⟩
          "time" "apply_time_v1" (some "first registration"))
        "time" "apply_time_v2" (some "second registration")
      = ⟨"_unknown phase_", "EnergyODE",
          [("time", ⟨"apply_time_v2", some "second registration"⟩)]⟩ := by
  decide

/-- Follows the spec claim's words (not the source), for comparison with
`apply_initial_guesses`: the guess keys present in `initial_guesses` but not
supported by the subtype's registry. -/
def specUnsupportedGuessKeys (cls : PhaseBuilderClass) (b : PhaseBuilder) : List String :=
  (AviaryValues.get_keys b.initial_guesses).filter
    (fun k => !(Dict.find cls.guess_registry k).isSome)

def clsC2 : PhaseBuilderClass :=
  ⟨"_unknown phase_", "EnergyODE", [("mass", ⟨"apply_mass_guess", none⟩)]⟩

def builderC2 : PhaseBuilder :=
  { name := "cruise"
    core_subsystems := []
    external_subsystems := []
    subsystem_options := []
    user_options := []
    initial_guesses := [("distance", .int 0, "NM")]
    ode_class := none
    transcription := none
    is_analytic_phase := false
    num_nodes := 5 }

/-- C2 counterexample: with registry key `'mass'` and stored guess
`'distance'`, `apply_initial_guesses` returns `['mass']` (the registry keys
not present in the guesses), while the claim predicts `['distance']` (the
guess keys not supported by the registry). -/
theorem C2_counterexample :
    (apply_initial_guesses clsC2 builderC2).2 = ["mass"]
    ∧ specUnsupportedGuessKeys clsC2 builderC2 = ["distance"]
    ∧ ¬ (apply_initial_guesses clsC2 builderC2).2
        = specUnsupportedGuessKeys clsC2 builderC2 := by
  decide

theorem applyGuessesOverRegistry_spec (b : PhaseBuilder) (reg : Dict GuessMeta) :
    (applyGuessesOverRegistry b reg).1
        = reg.filterMap (fun kv =>
            (AviaryValues.get_item b.initial_guesses kv.1).map
              (fun vu => ⟨kv.2.apply_initial_guess, b.name, vu.1, vu.2⟩))
    ∧ (applyGuessesOverRegistry b reg).2
        = (Dict.keys reg).filter
            (fun k => (AviaryValues.get_item b.initial_guesses k).isNone) := by
  induction reg with
  | nil => simp [applyGuessesOverRegistry, Dict.keys]
  | cons kv rest ih =>
    obtain ⟨key, meta⟩ := kv
    cases hg : AviaryValues.get_item b.initial_guesses key with
    | some vu =>
      obtain ⟨v, u⟩ := vu
      simp [applyGuessesOverRegistry, hg, Dict.keys, List.filterMap_cons,
        List.filter_cons, ih.1, ih.2]
    | none =>
      simp [applyGuessesOverRegistry, hg, Dict.keys, List.filterMap_cons,
        List.filter_cons, ih.1, ih.2]

/-- C2 (amended): `apply_initial_guesses` invokes the stored apply function —
with the stored value and units — for each registry key found in
`initial_guesses`, in registry order, ignores stored guess keys the registry
does not support without raising, and returns the list of registry keys not
present in `initial_guesses`, in registry order. -/
theorem C2_apply_initial_guesses_amended (cls : PhaseBuilderClass) (b : PhaseBuilder) :
    (apply_initial_guesses cls b).1
        = cls.guess_registry.filterMap (fun kv =>
            (AviaryValues.get_item b.initial_guesses kv.1).map
              (fun vu => ⟨kv.2.apply_initial_guess, b.name, vu.1, vu.2⟩))
    ∧ (apply_initial_guesses cls b).2
        = (Dict.keys cls.guess_registry).filter
            (fun k => (AviaryValues.get_item b.initial_guesses k).isNone) := by
  unfold apply_initial_guesses
  exact applyGuessesOverRegistry_spec b cls.guess_registry

/-- C5: `phase_info_to_builder` tries each registered type's recognizer in
registration order; whenever some registered type recognizes the phase info,
the result is the builder from the first such type (so the returned concrete
type is deterministic and equal to the first-registered type that succeeds);
when every registered type returns `None`, it raises
`ValueError('unsupported phase info: <name>')` naming the phase. -/
theorem C5_phase_info_to_builder_dispatch (registry : List RegisteredType)
    (name : String) (pinfo : PhaseInfo) :
    (∀ t, registry.find? (fun t => (t.recognize name pinfo).isSome) = some t →
      ∃ b, t.recognize name pinfo = some b ∧
        phase_info_to_builder registry name pinfo = .ok (t.tag, b))
    ∧ ((∀ t ∈ registry, t.recognize name pinfo = none) →
      phase_info_to_builder registry name pinfo
        = .error (.valueError ("unsupported phase info: " ++ name))) := by
  induction registry with
  | nil =>
    refine ⟨?_, ?_⟩
    · intro t ht
      exact absurd ht (by simp)
    · intro _
      rfl
  | cons hd tl ih =>
    refine ⟨?_, ?_⟩
    · intro t ht
      cases hs : hd.recognize name pinfo with
      | some b =>
        rw [List.find?_cons] at ht
        simp only [hs, Option.isSome_some] at ht
        have hht : hd = t := by injection ht
        subst hht
        exact ⟨b, hs, by simp [phase_info_to_builder, hs]⟩
      | none =>
        rw [List.find?_cons] at ht
        simp only [hs, Option.isSome_none] at ht
        obtain ⟨b, hb, hdisp⟩ := ih.1 t ht
        exact ⟨b, hb, by simp [phase_info_to_builder, hs, hdisp]⟩
    · intro hall
      have hs : hd.recognize name pinfo = none := hall hd (by simp)
      have htl := ih.2 (fun t ht => hall t (List.mem_cons_of_mem _ ht))
      simp [phase_info_to_builder, hs, htl]

def builderC5 : PhaseBuilder :=
  { name := "cruise"
    core_subsystems := []
    external_subsystems := []
    subsystem_options := []
    user_options := []
    initial_guesses := []
    ode_class := none
    transcription := none
    is_analytic_phase := false
    num_nodes := 5 }

def phaseInfoC5 : PhaseInfo :=
  { subsystem_options := none
    user_options := some []
    initial_guesses := none
    external_subsystems := none }

def registryC5 : List RegisteredType :=
  [⟨"TwoDOFPhase", fun _ _ => none⟩, ⟨"EnergyPhase", fun _ _ => some builderC5⟩]

theorem C5_phase_info_to_builder_dispatch_witness :
    phase_info_to_builder registryC5 "cruise" phaseInfoC5 = .ok ("EnergyPhase", builderC5) := by
  obtain ⟨b, hb, hdisp⟩ :=
    (C5_phase_info_to_builder_dispatch registryC5 "cruise" phaseInfoC5).1
      ⟨"EnergyPhase", fun _ _ => some builderC5⟩ rfl
  have hbe : b = builderC5 := by
    have : some builderC5 = some b := hb
    injection this.symm
  rw [hbe] at hdisp
  exact hdisp

/-- The kwargs dict left behind by the boundary-with-target branch of
`_add_user_defined_constraints`: `type` and `target` popped,
`constraint_name` set. -/
def boundaryAliasKwargs (name : String) (kwargs : Dict PyVal) : Dict PyVal :=
  Dict.set (Dict.remove (Dict.remove kwargs "type") "target") "constraint_name" (.str name)

/-- C10: a constraints entry whose kwargs carry a `'type'` that is neither
`'boundary'` nor `'path'` registers no constraint and raises no error — it is
silently skipped with its kwargs untouched; for the recognized types the
`'type'` key (and `'target'`, when present on a boundary constraint) is
removed from the caller's kwargs dict, observably, before the remaining
kwargs are forwarded to the constraint registration. -/
theorem C10_user_defined_constraint_dispatch (name : String) (kwargs : Dict PyVal) :
    (∀ ty, Dict.find kwargs "type" = some ty → ty ≠ .str "boundary" → ty ≠ .str "path" →
      add_one_user_defined_constraint name kwargs = .ok (kwargs, []))
    ∧ (∀ target, Dict.find kwargs "type" = some (.str "boundary") →
        Dict.find kwargs "target" = some target →
        add_one_user_defined_constraint name kwargs
            = .ok (boundaryAliasKwargs name kwargs,
                [.boundary target (boundaryAliasKwargs name kwargs)])
          ∧ Dict.find (boundaryAliasKwargs name kwargs) "type" = none
          ∧ Dict.find (boundaryAliasKwargs name kwargs) "target" = none)
    ∧ (Dict.find kwargs "type" = some (.str "boundary") →
        Dict.find kwargs "target" = none →
        add_one_user_defined_constraint name kwargs
            = .ok (Dict.remove kwargs "type",
                [.boundary (.str name) (Dict.remove kwargs "type")])
          ∧ Dict.find (Dict.remove kwargs "type") "type" = none)
    ∧ (Dict.find kwargs "type" = some (.str "path") →
        add_one_user_defined_constraint name kwargs
            = .ok (Dict.remove kwargs "type",
                [.path (.str name) (Dict.remove kwargs "type")])
          ∧ Dict.find (Dict.remove kwargs "type") "type" = none) := by
  have htt : ("target" : String) ≠ "type" := by decide
  have hct : ("type" : String) ≠ "constraint_name" := by decide
  have hcg : ("target" : String) ≠ "constraint_name" := by decide
  refine ⟨?_, ?_, ?_, ?_⟩
  · intro ty hty hb hp
    simp [add_one_user_defined_constraint, hty, hb, hp]
  · intro target hty htarget
    have ht' : Dict.find (Dict.remove kwargs "type") "target" = some target := by
      rw [Dict.find_remove_ne _ _ _ htt]
      exact htarget
    refine ⟨?_, ?_, ?_⟩
    · simp [add_one_user_defined_constraint, hty, ht', boundaryAliasKwargs]
    · rw [boundaryAliasKwargs, Dict.find_set_ne _ _ _ _ hct,
        Dict.find_remove_ne _ _ _ (by decide : ("type" : String) ≠ "target")]
      exact Dict.find_remove_self kwargs "type"
    · rw [boundaryAliasKwargs, Dict.find_set_ne _ _ _ _ hcg]
      exact Dict.find_remove_self _ "target"
  · intro hty htarget
    have ht' : Dict.find (Dict.remove kwargs "type") "target" = none := by
      rw [Dict.find_remove_ne _ _ _ htt]
      exact htarget
    exact ⟨by simp [add_one_user_defined_constraint, hty, ht'],
      Dict.find_remove_self kwargs "type"⟩
  · intro hty
    have hnb : (PyVal.str "path") ≠ (PyVal.str "boundary") := by decide
    exact ⟨by simp [add_one_user_defined_constraint, hty, hnb],
      Dict.find_remove_self kwargs "type"⟩

def kwargsSkip : Dict PyVal := [("type", .str "solver_bound"), ("upper", .int 5)]

def kwargsBoundaryTarget : Dict PyVal :=
  [("type", .str "boundary"), ("target", .str "altitude"), ("upper", .int 5)]

def kwargsPath : Dict PyVal := [("type", .str "path"), ("lower", .int 0)]

theorem C10_user_defined_constraint_dispatch_witness :
    add_one_user_defined_constraint "c" kwargsSkip = .ok (kwargsSkip, [])
    ∧ add_one_user_defined_constraint "c" kwargsBoundaryTarget
        = .ok (boundaryAliasKwargs "c" kwargsBoundaryTarget,
            [.boundary (.str "altitude") (boundaryAliasKwargs "c" kwargsBoundaryTarget)])
    ∧ Dict.find (boundaryAliasKwargs "c" kwargsBoundaryTarget) "target" = none
    ∧ add_one_user_defined_constraint "c" kwargsPath
        = .ok (Dict.remove kwargsPath "type",
            [.path (.str "c") (Dict.remove kwargsPath "type")]) :=
  ⟨(C10_user_defined_constraint_dispatch "c" kwargsSkip).1
      (.str "solver_bound") (by decide) (by decide) (by decide),
    ((C10_user_defined_constraint_dispatch "c" kwargsBoundaryTarget).2.1
      (.str "altitude") (by decide) (by decide)).1,
    ((C10_user_defined_constraint_dispatch "c" kwargsBoundaryTarget).2.1
      (.str "altitude") (by decide) (by decide)).2.2,
    ((C10_user_defined_constraint_dispatch "c" kwargsPath).2.2.2 (by decide)).1⟩

/-- C6: `build_phase` falls back to the class default `ode_class` when the
builder's is unset; for a non-analytic phase with no transcription set it
builds the default transcription — `dm.Radau` with `num_segments` and `order`
read from `user_options` exactly as stored (no rounding or resampling) and
`compressed=True`; an analytic phase is built with the builder's `num_nodes`
and carries no transcription. -/
theorem C6_build_phase_defaults :
    (∀ (cls : PhaseBuilderClass) (b : PhaseBuilder) (ao : Option AviaryValues)
        (ns od : PyVal),
      b.ode_class = none → b.transcription = none → b.is_analytic_phase = false →
      OptionsDict.getitem b.user_options "num_segments" = .ok ns →
      OptionsDict.getitem b.user_options "order" = .ok od →
      (build_phase cls b ao).map BuiltPhase.odeClass = .ok cls.default_ode_class
      ∧ (build_phase cls b ao).map BuiltPhase.transcriptionOf
          = .ok (some (.radau ns od true))
      ∧ (build_phase cls b ao).map BuiltPhase.numNodes = .ok none)
    ∧ (∀ (cls : PhaseBuilderClass) (b : PhaseBuilder) (ao : Option AviaryValues),
      b.ode_class = none → b.is_analytic_phase = true →
      (build_phase cls b ao).map BuiltPhase.odeClass = .ok cls.default_ode_class
      ∧ (build_phase cls b ao).map BuiltPhase.transcriptionOf = .ok none
      ∧ (build_phase cls b ao).map BuiltPhase.numNodes = .ok (some b.num_nodes)) := by
  constructor
  · intro cls b ao ns od hoc htr hia hns hod
    have hmdt : make_default_transcription b = .ok (.radau ns od true) := by
      unfold make_default_transcription
      rw [hns, hod]
    refine ⟨?_, ?_, ?_⟩ <;>
      simp [build_phase, hoc, htr, hia, hmdt, Except.map, BuiltPhase.odeClass,
        BuiltPhase.transcriptionOf, BuiltPhase.numNodes]
  · intro cls b ao hoc hia
    refine ⟨?_, ?_, ?_⟩ <;>
      simp [build_phase, hoc, hia, Except.map, BuiltPhase.odeClass,
        BuiltPhase.transcriptionOf, BuiltPhase.numNodes]

def builderC6 : PhaseBuilder :=
  { name := "climb"
    core_subsystems := []
    external_subsystems := []
    subsystem_options := []
    user_options := [("num_segments", .tup (.int 3) (.str "unitless")),
                     ("order", .tup (.int 4) (.str "unitless"))]
    initial_guesses := []
    ode_class := none
    transcription := none
    is_analytic_phase := false
    num_nodes := 5 }

def builderC6analytic : PhaseBuilder :=
  { name := "cruise"
    core_subsystems := []
    external_subsystems := []
    subsystem_options := []
    user_options := []
    initial_guesses := []
    ode_class := none
    transcription := none
    is_analytic_phase := true
    num_nodes := 7 }

def clsC6 : PhaseBuilderClass := ⟨"_unknown phase_", "EnergyODE", []⟩

theorem C6_build_phase_defaults_witness :
    (build_phase clsC6 builderC6 none).map BuiltPhase.odeClass = .ok "EnergyODE"
    ∧ (build_phase clsC6 builderC6 none).map BuiltPhase.transcriptionOf
        = .ok (some (.radau (.int 3) (.int 4) true))
    ∧ (build_phase clsC6 builderC6analytic none).map BuiltPhase.transcriptionOf = .ok none
    ∧ (build_phase clsC6 builderC6analytic none).map BuiltPhase.numNodes = .ok (some 7) := by
  obtain ⟨h1, h2, _⟩ :=
    (C6_build_phase_defaults).1 clsC6 builderC6 none (.int 3) (.int 4)
      rfl rfl rfl (by decide) (by decide)
  obtain ⟨_, h3, h4⟩ :=
    (C6_build_phase_defaults).2 clsC6 builderC6analytic none rfl rfl
  exact ⟨h1, h2, h3, h4⟩

def uoC9 : OptionsDict :=
  [("angle_lower", .tup (.int (-1)) (.str "rad")),
   ("angle_upper", .tup (.int 1) (.str "rad")),
   ("angle_ref", .tup (.int 1) (.str "rad")),
   ("angle_ref0", .tup (.int 0) (.str "rad")),
   ("angle_defect_ref", .tup (.int 1) (.str "rad")),
   ("fix_initial", .tup (.bool false) (.str "unitless"))]

/-- C9 counterexample: `user_options` stores `fix_initial = False`, yet
`add_flight_path_angle_state` registers its state with `fix_initial=True`
(the literal in the source), so not every state-builder helper reads the
fix-initial flag from `user_options` as the claim asserts. -/
theorem C9_counterexample :
    OptionsDict.get_val0 uoC9 "fix_initial" = .ok (.bool false)
    ∧ (add_flight_path_angle_state uoC9).map StateDecl.fix_initial
        = .ok (some (.bool true))
    ∧ ¬ (add_flight_path_angle_state uoC9).map StateDecl.fix_initial
        = .ok (some (.bool false)) := by
  decide

/-- C9 (amended): each state-builder helper reads its lower/upper bound,
reference, zero-reference and defect-reference options from `user_options` in
the option's native unit and registers exactly one state wired to the named
rate output of the ODE; the velocity, mass and distance helpers also read the
fix-initial flag from `user_options`, but the flight-path-angle helper passes
the literal `fix_initial=True` regardless of `user_options`, and the altitude
helper passes no fix-initial flag at all. -/
theorem C9_state_builder_helpers_amended :
    (∀ (uo : OptionsDict) (vl vu vr vr0 vdr fi : PyVal),
      OptionsDict.get_val uo "velocity_lower" "kn" = .ok vl →
      OptionsDict.get_val uo "velocity_upper" "kn" = .ok vu →
      OptionsDict.get_val uo "velocity_ref" "kn" = .ok vr →
      OptionsDict.get_val uo "velocity_ref0" "kn" = .ok vr0 →
      OptionsDict.get_val uo "velocity_defect_ref" "kn" = .ok vdr →
      OptionsDict.get_val0 uo "fix_initial" = .ok fi →
      add_velocity_state uo = .ok {
        state_name := Dynamic_Mission_VELOCITY
        fix_initial := some fi
        fix_final := false
        lower := vl
        upper := vu
        units := "kn"
        rate_source := Dynamic_Mission_VELOCITY_RATE
        targets := some Dynamic_Mission_VELOCITY
        ref := vr
        ref0 := vr0
        defect_ref := vdr })
    ∧ (∀ (uo : OptionsDict) (ml mu mr mr0 mdr fi : PyVal),
      OptionsDict.get_val uo "mass_lower" "lbm" = .ok ml →
      OptionsDict.get_val uo "mass_upper" "lbm" = .ok mu →
      OptionsDict.get_val uo "mass_ref" "lbm" = .ok mr →
      OptionsDict.get_val uo "mass_ref0" "lbm" = .ok mr0 →
      OptionsDict.get_val uo "mass_defect_ref" "lbm" = .ok mdr →
      OptionsDict.get_val0 uo "fix_initial" = .ok fi →
      add_mass_state uo = .ok {
        state_name := Dynamic_Vehicle_MASS
        fix_initial := some fi
        fix_final := false
        lower := ml
        upper := mu
        units := "lbm"
        rate_source := Dynamic_Vehicle_Propulsion_FUEL_FLOW_RATE_NEGATIVE_TOTAL
        targets := some Dynamic_Vehicle_MASS
        ref := mr
        ref0 := mr0
        defect_ref := mdr })
    ∧ (∀ (uo : OptionsDict) (units : String) (dl du dr dr0 ddr fi : PyVal),
      OptionsDict.get_val uo "distance_lower" units = .ok dl →
      OptionsDict.get_val uo "distance_upper" units = .ok du →
      OptionsDict.get_val uo "distance_ref" units = .ok dr →
      OptionsDict.get_val uo "distance_ref0" units = .ok dr0 →
      OptionsDict.get_val uo "distance_defect_ref" units = .ok ddr →
      OptionsDict.get_val0 uo "fix_initial" = .ok fi →
      add_distance_state uo units = .ok {
        state_name := Dynamic_Mission_DISTANCE
        fix_initial := some fi
        fix_final := false
        lower := dl
        upper := du
        units := units
        rate_source := Dynamic_Mission_DISTANCE_RATE
        targets := none
        ref := dr
        ref0 := dr0
        defect_ref := ddr })
    ∧ (∀ (uo : OptionsDict) (al au ar ar0 adr : PyVal),
      OptionsDict.get_val uo "angle_lower" "rad" = .ok al →
      OptionsDict.get_val uo "angle_upper" "rad" = .ok au →
      OptionsDict.get_val uo "angle_ref" "rad" = .ok ar →
      OptionsDict.get_val uo "angle_ref0" "rad" = .ok ar0 →
      OptionsDict.get_val uo "angle_defect_ref" "rad" = .ok adr →
      add_flight_path_angle_state uo = .ok {
        state_name := Dynamic_Mission_FLIGHT_PATH_ANGLE
        fix_initial := some (.bool true)
        fix_final := false
        lower := al
        upper := au
        units := "rad"
        rate_source := Dynamic_Mission_FLIGHT_PATH_ANGLE_RATE
        targets := none
        ref := ar
        ref0 := ar0
        defect_ref := adr })
    ∧ (∀ (uo : OptionsDict) (units : String) (hl hu hr hr0 hdr : PyVal),
      OptionsDict.get_val uo "alt_lower" units = .ok hl →
      OptionsDict.get_val uo "alt_upper" units = .ok hu →
      OptionsDict.get_val uo "alt_ref" units = .ok hr →
      OptionsDict.get_val uo "alt_ref0" units = .ok hr0 →
      OptionsDict.get_val uo "alt_defect_ref" units = .ok hdr →
      add_altitude_state uo units = .ok {
        state_name := Dynamic_Mission_ALTITUDE
        fix_initial := none
        fix_final := false
        lower := hl
        upper := hu
        units := units
        rate_source := Dynamic_Mission_ALTITUDE_RATE
        targets := none
        ref := hr
        ref0 := hr0
        defect_ref := hdr }) := by
  refine ⟨?_, ?_, ?_, ?_, ?_⟩
  · intro uo vl vu vr vr0 vdr fi h1 h2 h3 h4 h5 h6
    simp only [add_velocity_state, h1, h2, h3, h4, h5, h6]
    rfl
  · intro uo ml mu mr mr0 mdr fi h1 h2 h3 h4 h5 h6
    simp only [add_mass_state, h1, h2, h3, h4, h5, h6]
    rfl
  · intro uo units dl du dr dr0 ddr fi h1 h2 h3 h4 h5 h6
    simp only [add_distance_state, h1, h2, h3, h4, h5, h6]
    rfl
  · intro uo al au ar ar0 adr h1 h2 h3 h4 h5
    simp only [add_flight_path_angle_state, h1, h2, h3, h4, h5]
    rfl
  · intro uo units hl hu hr hr0 hdr h1 h2 h3 h4 h5
    simp only [add_altitude_state, h1, h2, h3, h4, h5]
    rfl

def uoC9all : OptionsDict :=
  [("velocity_lower", .tup (.int 100) (.str "kn")),
   ("velocity_upper", .tup (.int 500) (.str "kn")),
   ("velocity_ref", .tup (.int 250) (.str "kn")),
   ("velocity_ref0", .tup (.int 0) (.str "kn")),
   ("velocity_defect_ref", .tup (.int 250) (.str "kn")),
   ("mass_lower", .tup (.int 10000) (.str "lbm")),
   ("mass_upper", .tup (.int 200000) (.str "lbm")),
   ("mass_ref", .tup (.int 100000) (.str "lbm")),
   ("mass_ref0", .tup (.int 0) (.str "lbm")),
   ("mass_defect_ref", .tup (.int 100000) (.str "lbm")),
   ("distance_lower", .tup (.int 0) (.str "NM")),
   ("distance_upper", .tup (.int 3000) (.str "NM")),
   ("distance_ref", .tup (.int 1000) (.str "NM")),
   ("distance_ref0", .tup (.int 0) (.str "NM")),
   ("distance_defect_ref", .tup (.int 1000) (.str "NM")),
   ("angle_lower", .tup (.int (-1)) (.str "rad")),
   ("angle_upper", .tup (.int 1) (.str "rad")),
   ("angle_ref", .tup (.int 1) (.str "rad")),
   ("angle_ref0", .tup (.int 0) (.str "rad")),
   ("angle_defect_ref", .tup (.int 1) (.str "rad")),
   ("alt_lower", .tup (.int 0) (.str "ft")),
   ("alt_upper", .tup (.int 40000) (.str "ft")),
   ("alt_ref", .tup (.int 30000) (.str "ft")),
   ("alt_ref0", .tup (.int 0) (.str "ft")),
   ("alt_defect_ref", .tup (.int 30000) (.str "ft")),
   ("fix_initial", .tup (.bool true) (.str "unitless"))]

theorem C9_state_builder_helpers_amended_witness :
    add_velocity_state uoC9all = .ok {
        state_name := Dynamic_Mission_VELOCITY
        fix_initial := some (.bool true)
        fix_final := false
        lower := .int 100
        upper := .int 500
        units := "kn"
        rate_source := Dynamic_Mission_VELOCITY_RATE
        targets := some Dynamic_Mission_VELOCITY
        ref := .int 250
        ref0 := .int 0
        defect_ref := .int 250 }
    ∧ add_flight_path_angle_state uoC9all = .ok {
        state_name := Dynamic_Mission_FLIGHT_PATH_ANGLE
        fix_initial := some (.bool true)
        fix_final := false
        lower := .int (-1)
        upper := .int 1
        units := "rad"
        rate_source := Dynamic_Mission_FLIGHT_PATH_ANGLE_RATE
        targets := none
        ref := .int 1
        ref0 := .int 0
        defect_ref := .int 1 }
    ∧ add_altitude_state uoC9all "ft" = .ok {
        state_name := Dynamic_Mission_ALTITUDE
        fix_initial := none
        fix_final := false
        lower := .int 0
        upper := .int 40000
        units := "ft"
        rate_source := Dynamic_Mission_ALTITUDE_RATE
        targets := none
        ref := .int 30000
        ref0 := .int 0
        defect_ref := .int 30000 } :=
  ⟨C9_state_builder_helpers_amended.1 uoC9all (.int 100) (.int 500) (.int 250) (.int 0)
      (.int 250) (.bool true) (by decide) (by decide) (by decide) (by decide) (by decide)
      (by decide),
    C9_state_builder_helpers_amended.2.2.2.1 uoC9all (.int (-1)) (.int 1) (.int 1)
      (.int 0) (.int 1) (by decide) (by decide) (by decide) (by decide) (by decide),
    C9_state_builder_helpers_amended.2.2.2.2 uoC9all "ft" (.int 0) (.int 40000)
      (.int 30000) (.int 0) (.int 30000) (by decide) (by decide) (by decide) (by decide)
      (by decide)⟩

/-- C4: when `from_phase_info` succeeds, the only change to the caller's
phase-info dict is the normalization of bare-scalar `user_options` values to
`(value, 'unitless')`: `subsystem_options`, `initial_guesses` and
`external_subsystems` are the caller's objects unchanged, tuple-valued
`user_options` entries survive unchanged, and each key absent from the input
defaults to an empty collection in the constructed builder. -/
theorem C4_from_phase_info_frame (cls : PhaseBuilderClass) (cn name : String)
    (pinfo : PhaseInfo) (cs : Option (List String)) (tr : Option Transcription)
    (pinfo' : PhaseInfo) (b : PhaseBuilder)
    (h : from_phase_info cls cn name pinfo cs tr = .ok (pinfo', b)) :
    pinfo'.subsystem_options = pinfo.subsystem_options
    ∧ pinfo'.initial_guesses = pinfo.initial_guesses
    ∧ pinfo'.external_subsystems = pinfo.external_subsystems
    ∧ (∀ uo, pinfo.user_options = some uo →
        pinfo'.user_options = some (uo.map (fun kv => (kv.1, normalizeUserOpt kv.2)))
        ∧ ∀ kv ∈ uo, kv.2.isTuple = true →
            kv ∈ uo.map (fun kv => (kv.1, normalizeUserOpt kv.2)))
    ∧ (pinfo.subsystem_options = none → b.subsystem_options = [])
    ∧ (pinfo.initial_guesses = none → b.initial_guesses = [])
    ∧ (pinfo.external_subsystems = none → b.external_subsystems = []) := by
  obtain ⟨pso, puo, pig, pext⟩ := pinfo
  cases huo : puo with
  | none =>
    subst huo
    simp only [from_phase_info] at h
    exact absurd h (by simp)
  | some uo =>
    subst huo
    simp only [from_phase_info, Option.getD_some] at h
    cases hinit : PhaseBuilder.init cls cn (some name) cs
        (some (pext.getD [])) (some (uo.map (fun kv => (kv.1, normalizeUserOpt kv.2))))
        (some (AviaryValues.ofDict (pig.getD []))) none tr (some (pso.getD []))
        false 5 with
    | error e =>
      rw [hinit] at h
      exact absurd h (by simp)
    | ok b0 =>
      rw [hinit] at h
      simp only [Except.ok.injEq, Prod.mk.injEq] at h
      obtain ⟨hpi, hb⟩ := h
      obtain ⟨_, hb0⟩ := PhaseBuilder.init_ok_elim _ _ _ _ _ _ _ _ _ _ _ _ _ hinit
      subst hpi
      refine ⟨rfl, rfl, rfl, ?_, ?_, ?_, ?_⟩
      · intro uo1 huo1
        have he : uo = uo1 := by simpa using huo1
        subst he
        refine ⟨rfl, ?_⟩
        intro kv hkv htup
        exact List.mem_map.mpr
          ⟨kv, hkv, by simp [normalizeUserOpt_of_isTuple kv.2 htup]⟩
      · intro hso
        have hpso : pso = none := by simpa using hso
        rw [← hb, hb0, hpso]
        rfl
      · intro hig
        have hpig : pig = none := by simpa using hig
        rw [← hb, hb0, hpig]
        rfl
      · intro hext
        have hpext : pext = none := by simpa using hext
        rw [← hb, hb0, hpext]
        rfl

def pinfoC4 : PhaseInfo :=
  { subsystem_options := none
    user_options := some [("optimize_mach", .bool true),
                          ("duration_bounds", .tup (.tup (.int 0) (.int 10)) (.str "s"))]
    initial_guesses := none
    external_subsystems := none }

def pinfoC4out : PhaseInfo :=
  { subsystem_options := none
    user_options := some [("optimize_mach", .tup (.bool true) (.str "unitless")),
                          ("duration_bounds", .tup (.tup (.int 0) (.int 10)) (.str "s"))]
    initial_guesses := none
    external_subsystems := none }

def clsC4 : PhaseBuilderClass := ⟨"_unknown phase_", "EnergyODE", []⟩

def builderC4 : PhaseBuilder :=
  { name := "cruise"
    core_subsystems := []
    external_subsystems := []
    subsystem_options := []
    user_options := [("optimize_mach", .tup (.bool true) (.str "unitless")),
                     ("duration_bounds", .tup (.tup (.int 0) (.int 10)) (.str "s"))]
    initial_guesses := []
    ode_class := none
    transcription := none
    is_analytic_phase := false
    num_nodes := 5 }

theorem C4_from_phase_info_frame_witness :
    pinfoC4out.subsystem_options = pinfoC4.subsystem_options
    ∧ pinfoC4out.initial_guesses = pinfoC4.initial_guesses
    ∧ builderC4.subsystem_options = []
    ∧ builderC4.initial_guesses = []
    ∧ builderC4.external_subsystems = []
    ∧ ("duration_bounds", PyVal.tup (.tup (.int 0) (.int 10)) (.str "s"))
        ∈ [("optimize_mach", PyVal.bool true),
           ("duration_bounds", PyVal.tup (.tup (.int 0) (.int 10)) (.str "s"))].map
            (fun kv => (kv.1, normalizeUserOpt kv.2)) := by
  have h := C4_from_phase_info_frame clsC4 "PhaseBuilderBase" "cruise" pinfoC4 none none
    pinfoC4out builderC4 (by decide)
  exact ⟨h.1, h.2.1, h.2.2.2.2.1 rfl, h.2.2.2.2.2.1 rfl, h.2.2.2.2.2.2 rfl,
    (h.2.2.2.1 _ rfl).2 _ (by decide) (by decide)⟩

theorem map_normalizeUserOpt_idem (uo : Dict PyVal) :
    (uo.map (fun kv => (kv.1, normalizeUserOpt kv.2))).map
        (fun kv => (kv.1, normalizeUserOpt kv.2))
      = uo.map (fun kv => (kv.1, normalizeUserOpt kv.2)) := by
  induction uo with
  | nil => rfl
  | cons kv rest ih => simp [normalizeUserOpt_idem, ih]

theorem PhaseBuilder.init_ok_of_valid (cls : PhaseBuilderClass) (clsName : String)
    (name : Option String) (cs es : Option (List String)) (uo : Option (Dict PyVal))
    (ig : Option AviaryValues) (oc : Option String) (tr : Option Transcription)
    (so : Option (Dict PyVal)) (ia : Bool) (nn : Nat)
    (h : validate_initial_guesses cls clsName (name.getD cls.default_name) (ig.getD [])
      = .ok ()) :
    PhaseBuilder.init cls clsName name cs es uo ig oc tr so ia nn
      = .ok {
          name := name.getD cls.default_name
          core_subsystems := cs.getD []
          external_subsystems := es.getD []
          subsystem_options := so.getD []
          user_options := OptionsDict.ofUserOptions uo
          initial_guesses := ig.getD []
          ode_class := oc
          transcription := tr
          is_analytic_phase := ia
          num_nodes := nn } := by
  simp only [PhaseBuilder.init]
  rw [h]

/-- The composite experiment of the round-trip claim: build a builder from a
phase-info dict with `from_phase_info`, feed `to_phase_info()`'s result back
through `from_phase_info`, and read off the second builder's
`to_phase_info()`. -/
def roundTripOnce (cls : PhaseBuilderClass) (cn name : String) (pinfo : PhaseInfo) :
    Except PBError (String × PhaseInfo) :=
  match from_phase_info cls cn name pinfo none none with
  | .error e => .error e
  | .ok (_, b) =>
    match from_phase_info cls cn (to_phase_info b).1 (to_phase_info b).2 none none with
    | .error e => .error e
    | .ok (_, b2) => .ok (to_phase_info b2)

/-- C1: for a valid phase-info dict carrying the keys `subsystem_options`,
`user_options` and `initial_guesses` (guesses as `(value, unit)` tuples over
supported keys), the to/from round trip reproduces the dict exactly, up to the
single normalization of bare-scalar `user_options` values to
`(value, 'unitless')`; the three keys and all their nested content are
preserved. -/
theorem C1_round_trip (cls : PhaseBuilderClass) (cn name : String) (pinfo : PhaseInfo)
    (so : Dict PyVal) (uo igs : Dict PyVal)
    (hso : pinfo.subsystem_options = some so)
    (huo : pinfo.user_options = some uo)
    (hig : pinfo.initial_guesses = some igs)
    (hext : pinfo.external_subsystems = none)
    (hshape : ∀ kv ∈ igs, ∃ v u, kv.2 = PyVal.tup v (.str u))
    (hvalid : ∀ kv ∈ igs, kv.1 ∈ Dict.keys cls.guess_registry) :
    roundTripOnce cls cn name pinfo
      = .ok (name, { pinfo with
          user_options := some (uo.map (fun kv => (kv.1, normalizeUserOpt kv.2))) }) := by
  obtain ⟨pso, puo, pig, pext⟩ := pinfo
  simp only at hso huo hig hext
  subst hso huo hig hext
  have hvald : validate_initial_guesses cls cn name (AviaryValues.ofDict igs) = .ok () := by
    refine (validate_initial_guesses_ok_iff _ _ _ _).mpr ?_
    intro k hk
    rw [AviaryValues.get_keys_ofDict] at hk
    obtain ⟨kv, hkv, rfl⟩ := List.mem_map.mp hk
    exact (Dict.find_isSome_iff_mem_keys _ _).mpr (hvalid kv hkv)
  have htd : AviaryValues.toDict (AviaryValues.ofDict igs) = igs :=
    AviaryValues.toDict_ofDict igs hshape
  have hinit1 :=
    PhaseBuilder.init_ok_of_valid cls cn (some name) none (some [])
      (some (uo.map (fun kv => (kv.1, normalizeUserOpt kv.2))))
      (some (AviaryValues.ofDict igs)) none none (some so) false 5 (by simpa using hvald)
  have hfrom1 : from_phase_info cls cn name
      ⟨some so, some uo, some igs, none⟩ none none
      = .ok (⟨some so, some (uo.map (fun kv => (kv.1, normalizeUserOpt kv.2))),
              some igs, none⟩,
          { name := name
            core_subsystems := []
            external_subsystems := []
            subsystem_options := so
            user_options := uo.map (fun kv => (kv.1, normalizeUserOpt kv.2))
            initial_guesses := AviaryValues.ofDict igs
            ode_class := none
            transcription := none
            is_analytic_phase := false
            num_nodes := 5 }) := by
    simp only [from_phase_info, PhaseInfo.user_options, PhaseInfo.subsystem_options,
      PhaseInfo.initial_guesses, PhaseInfo.external_subsystems,
      Option.getD_some, Option.getD_none]
    rw [hinit1]
    rfl
  have htp1 : to_phase_info
      { name := name
        core_subsystems := []
        external_subsystems := []
        subsystem_options := so
        user_options := uo.map (fun kv => (kv.1, normalizeUserOpt kv.2))
        initial_guesses := AviaryValues.ofDict igs
        ode_class := none
        transcription := none
        is_analytic_phase := false
        num_nodes := 5 }
      = (name, ⟨some so, some (uo.map (fun kv => (kv.1, normalizeUserOpt kv.2))),
          some igs, none⟩) := by
    simp only [to_phase_info, OptionsDict.to_phase_info, PhaseBuilder.name,
      PhaseBuilder.subsystem_options, PhaseBuilder.user_options,
      PhaseBuilder.initial_guesses, htd]
  have hfrom2 : from_phase_info cls cn name
      ⟨some so, some (uo.map (fun kv => (kv.1, normalizeUserOpt kv.2))), some igs, none⟩
      none none
      = .ok (⟨some so, some (uo.map (fun kv => (kv.1, normalizeUserOpt kv.2))),
              some igs, none⟩,
          { name := name
            core_subsystems := []
            external_subsystems := []
            subsystem_options := so
            user_options := uo.map (fun kv => (kv.1, normalizeUserOpt kv.2))
            initial_guesses := AviaryValues.ofDict igs
            ode_class := none
            transcription := none
            is_analytic_phase := false
            num_nodes := 5 }) := by
    simp only [from_phase_info, PhaseInfo.user_options, PhaseInfo.subsystem_options,
      PhaseInfo.initial_guesses, PhaseInfo.external_subsystems,
      Option.getD_some, Option.getD_none, map_normalizeUserOpt_idem]
    rw [hinit1]
    rfl
  simp only [roundTripOnce, hfrom1, htp1, hfrom2]

def clsC1 : PhaseBuilderClass :=
  ⟨"_unknown phase_", "EnergyODE", [("time", ⟨"apply_time_guess", none⟩)]⟩

def pinfoC1 : PhaseInfo :=
  { subsystem_options := some [("aerodynamics", .atom "aero_params")]
    user_options := some [("optimize_mach", .bool true),
                          ("num_segments", .tup (.int 3) (.str "unitless"))]
    initial_guesses := some [("time", .tup (.tup (.int 0) (.int 10)) (.str "s"))]
    external_subsystems := none }

theorem C1_round_trip_witness :
    roundTripOnce clsC1 "PhaseBuilderBase" "cruise" pinfoC1
      = .ok ("cruise", { pinfoC1 with
          user_options := some [("optimize_mach", .tup (.bool true) (.str "unitless")),
                                ("num_segments", .tup (.int 3) (.str "unitless"))] }) := by
  have h := C1_round_trip clsC1 "PhaseBuilderBase" "cruise" pinfoC1
    [("aerodynamics", .atom "aero_params")]
    [("optimize_mach", .bool true), ("num_segments", .tup (.int 3) (.str "unitless"))]
    [("time", .tup (.tup (.int 0) (.int 10)) (.str "s"))]
    rfl rfl rfl rfl
    (by
      intro kv hkv
      rw [List.mem_singleton] at hkv
      subst hkv
      exact ⟨.tup (.int 0) (.int 10), "s", rfl⟩)
    (by decide)
  exact h.trans (by decide)
